import Mathlib

/-
Verification of the unreal-art front-end configuration layer.

The development shallowly embeds the two source files of the repository:
  * next.config.ts — the build configuration record, the Sentry webpack
    plugin options and the header-redaction hook beforeSend;
  * src/app/auth/page.tsx — the authentication landing page markup.

Dictionaries (request headers, process environment) are modelled as
association lists respectively lookup functions; optional / nullable
fields as Option.
-/

namespace UnrealArt

/-- A Sentry error-event request, mirroring the fields of
`Event.request` that next.config.ts touches: an optional headers
dictionary (string keys to string values), plus a representative
further field (`url`). A missing or null headers object is `none`. -/
structure SentryRequest where
  url : Option String
  headers : Option (List (String × String))
deriving DecidableEq, Repr

/-- A Sentry error event (the `Event` type of the monitoring SDK),
restricted to the optional request plus representative scalar fields. -/
structure Event where
  event_id : Option String
  message : Option String
  request : Option SentryRequest
deriving DecidableEq, Repr

/-- The effect of the JavaScript statement `delete headers[key]` on a
headers dictionary: every binding of `key` is removed (object keys are
unique, so at most one binding exists in practice). -/
def deleteHeader (hs : List (String × String)) (key : String) : List (String × String) :=
  hs.filter (fun p => p.1 != key)

/-- The redaction hook `beforeSend` of next.config.ts: when the event
has a (non-null) request headers object, the "Authorization" and then
the "Cookie" entries are deleted from it; otherwise the event passes
through untouched, and the (possibly mutated) event is returned. -/
def beforeSend (event : Event) : Event :=
  match event.request with
  | some req =>
    match req.headers with
    | some hs =>
      { event with
        request := some { req with
          headers := some (deleteHeader (deleteHeader hs "Authorization") "Cookie") } }
    | none => event
  | none => event

/-- The hook as the monitoring SDK consumes it: a Sentry `beforeSend`
callback may return null to drop an event, so its contract type is
`Event → Option Event`; the hook of next.config.ts is declared with
plain return type `Event` and is passed to the SDK by the implicit
upcast, i.e. it always yields `some`. -/
def beforeSendHook (event : Event) : Option Event :=
  some (beforeSend event)

theorem lookup_deleteHeader_self (hs : List (String × String)) (key : String) :
    (deleteHeader hs key).lookup key = none := by
  induction hs with
  | nil => rfl
  | cons p t ih =>
    obtain ⟨k, v⟩ := p
    simp only [deleteHeader] at ih ⊢
    by_cases h : k = key
    · subst h
      simpa using ih
    · have h1 : ((k, v).1 != key) = true := by simpa [bne_iff_ne] using h
      have h2 : (key == k) = false := by simpa [beq_iff_eq] using Ne.symm h
      simpa [List.filter_cons, h1, List.lookup, h2] using ih

theorem lookup_deleteHeader_ne (hs : List (String × String)) (key k : String)
    (h : k ≠ key) : (deleteHeader hs key).lookup k = hs.lookup k := by
  induction hs with
  | nil => rfl
  | cons p t ih =>
    obtain ⟨k', v⟩ := p
    simp only [deleteHeader] at ih ⊢
    by_cases hp : k' = key
    · have hk : (k == k') = false := by
        simp only [beq_eq_false_iff_ne, ne_eq]
        exact fun hh => h (hh.trans hp)
      subst hp
      simpa [List.lookup, hk] using ih
    · have h1 : ((k', v).1 != key) = true := by simpa [bne_iff_ne] using hp
      by_cases hk : k = k'
      · simp [List.filter_cons, h1, List.lookup, hk]
      · have hk2 : (k == k') = false := by simpa [beq_eq_false_iff_ne] using hk
        simpa [List.filter_cons, h1, List.lookup, hk2] using ih

theorem deleteHeader_idem (hs : List (String × String)) (key : String) :
    deleteHeader (deleteHeader hs key) key = deleteHeader hs key := by
  simp only [deleteHeader, List.filter_filter, Bool.and_self]

theorem deleteHeader_comm (hs : List (String × String)) (k k' : String) :
    deleteHeader (deleteHeader hs k) k' = deleteHeader (deleteHeader hs k') k := by
  simp only [deleteHeader, List.filter_filter, Bool.and_comm]

theorem deleteHeader_of_deleteHeader (hs : List (String × String)) (k k' : String) :
    deleteHeader (deleteHeader (deleteHeader (deleteHeader hs k) k') k) k' =
      deleteHeader (deleteHeader hs k) k' := by
  rw [deleteHeader_comm (deleteHeader (deleteHeader hs k) k') k k',
    deleteHeader_idem, deleteHeader_comm (deleteHeader hs k) k' k, deleteHeader_idem]

/-- C1: for every error event whose request headers contain the key
"Authorization" and/or the key "Cookie", `beforeSend` returns an event
whose request headers contain neither of those keys, and every other
header key maps to the same value as in the input event. -/
theorem beforeSend_redacts_sensitive_headers (e : Event) (req : SentryRequest)
    (hs : List (String × String))
    (hreq : e.request = some req) (hhs : req.headers = some hs)
    (_hhas : hs.lookup "Authorization" ≠ none ∨ hs.lookup "Cookie" ≠ none) :
    ∃ hs' : List (String × String),
      (beforeSend e).request = some { req with headers := some hs' } ∧
      hs'.lookup "Authorization" = none ∧
      hs'.lookup "Cookie" = none ∧
      ∀ k : String, k ≠ "Authorization" → k ≠ "Cookie" →
        hs'.lookup k = hs.lookup k := by
  refine ⟨deleteHeader (deleteHeader hs "Authorization") "Cookie", ?_, ?_, ?_, ?_⟩
  · simp [beforeSend, hreq, hhs]
  · rw [lookup_deleteHeader_ne _ _ _ (by decide)]
    exact lookup_deleteHeader_self _ _
  · exact lookup_deleteHeader_self _ _
  · intro k hka hkc
    rw [lookup_deleteHeader_ne _ _ _ hkc, lookup_deleteHeader_ne _ _ _ hka]

/-- A concrete headers dictionary with both sensitive keys and one
unrelated key, for exercising the hook. -/
def sampleHeaders : List (String × String) :=
  [("Authorization", "Bearer tok"), ("Cookie", "sid=1"), ("Accept", "text/html")]

/-- A concrete request carrying `sampleHeaders`. -/
def sampleRequest : SentryRequest :=
  { url := some "https://unreal.art/x", headers := some sampleHeaders }

/-- A concrete error event carrying `sampleRequest`. -/
def sampleEvent : Event :=
  { event_id := some "e1", message := none, request := some sampleRequest }

/-- A concrete error event with no request at all. -/
def bareEvent : Event :=
  { event_id := some "e2", message := some "boom", request := none }

/-- A concrete request whose headers field is absent. -/
def headerlessRequest : SentryRequest :=
  { url := some "https://unreal.art", headers := none }

/-- A concrete error event whose request has no headers dictionary. -/
def headerlessEvent : Event :=
  { event_id := none, message := some "boom", request := some headerlessRequest }

/-- Witness for C1 at a concrete event carrying an Authorization header,
a Cookie header and an unrelated header. -/
theorem beforeSend_redacts_sensitive_headers_witness :
    ∃ hs' : List (String × String),
      (beforeSend sampleEvent).request = some { sampleRequest with headers := some hs' } ∧
      hs'.lookup "Authorization" = none ∧
      hs'.lookup "Cookie" = none ∧
      ∀ k : String, k ≠ "Authorization" → k ≠ "Cookie" →
        hs'.lookup k = sampleHeaders.lookup k :=
  beforeSend_redacts_sensitive_headers sampleEvent sampleRequest sampleHeaders
    rfl rfl (Or.inl (by decide))

/-- C2: for every error event with no request headers (the request field
is absent, or its headers field is absent), `beforeSend` returns the
event unmodified in every field. -/
theorem beforeSend_noop_without_headers (e : Event)
    (h : e.request = none ∨ ∃ req : SentryRequest, e.request = some req ∧ req.headers = none) :
    beforeSend e = e := by
  rcases h with h | ⟨req, hreq, hhs⟩
  · simp [beforeSend, h]
  · simp [beforeSend, hreq, hhs]

/-- Witness for C2 at a concrete event without a request and at a
concrete event whose request has no headers. -/
theorem beforeSend_noop_without_headers_witness :
    beforeSend bareEvent = bareEvent ∧ beforeSend headerlessEvent = headerlessEvent :=
  ⟨beforeSend_noop_without_headers bareEvent (Or.inl rfl),
    beforeSend_noop_without_headers headerlessEvent
      (Or.inr ⟨headerlessRequest, rfl, rfl⟩)⟩

/-- C8: `beforeSend` is idempotent: applying the redaction hook twice
yields the same event as applying it once. -/
theorem beforeSend_idempotent (e : Event) :
    beforeSend (beforeSend e) = beforeSend e := by
  rcases e with ⟨ei, msg, req⟩
  rcases req with _ | ⟨url, hs⟩
  · rfl
  · rcases hs with _ | hs
    · rfl
    · simp [beforeSend, deleteHeader_of_deleteHeader]

/-- C9: the hook never drops an event: for every input error event the
hook hands the monitoring SDK `some` event, namely the sanitized one, so
every error event is forwarded after sanitization. -/
theorem beforeSendHook_never_drops (e : Event) :
    ∃ e' : Event, beforeSendHook e = some e' ∧ e' = beforeSend e :=
  ⟨beforeSend e, rfl, rfl⟩

/-- A remote-image allow-list entry: protocol plus hostname, as in
`images.remotePatterns` of next.config.ts. -/
structure RemotePattern where
  protocol : String
  hostname : String
deriving DecidableEq, Repr

/-- The `images.remotePatterns` allow-list of next.config.ts, in source
order. -/
def remotePatterns : List RemotePattern :=
  [{ protocol := "https", hostname := "gateway.mesh3.network" },
   { protocol := "https", hostname := "gateway.lighthouse.storage" },
   { protocol := "https", hostname := "assets.react-photo-album.com" },
   { protocol := "https", hostname := "lh3.googleusercontent.com" },
   { protocol := "https", hostname := "cdn.discordapp.com" },
   { protocol := "https", hostname := "r2.unreal.art" },
   { protocol := "https", hostname := "pub-bc2d2d9bc6fb490dbb380efd5781048d.r2.dev" }]

/-- The hostnames of the allow-list, in source order. -/
def allowedHostnames : List String :=
  remotePatterns.map (fun p => p.hostname)

/-- A remote host is permitted by the configuration exactly when some
allow-list entry carries its hostname. -/
def hostAllowed (host : String) : Bool :=
  remotePatterns.any (fun p => p.hostname == host)

/-- The `compiler.removeConsole` option: disabled, or stripping console
calls except an exclusion list. -/
inductive RemoveConsoleSetting where
  | disabled
  | excludeList (exclude : List String)
deriving DecidableEq, Repr

/-- The `images` option group of next.config.ts. -/
structure ImagesConfig where
  remotePatterns : List RemotePattern
  formats : List String
  deviceSizes : List Nat
  minimumCacheTTL : Nat
deriving DecidableEq, Repr

/-- The `experimental` option group of next.config.ts (the commented-out
turbo rules and ppr flag are omitted as in the source). -/
structure ExperimentalConfig where
  optimizePackageImports : List String
  optimizeCssExtractCritical : Bool
  optimizeCssInlineCritical : Bool
  serverActionsBodySizeLimit : String
deriving DecidableEq, Repr

/-- The `onDemandEntries` option group of next.config.ts. -/
structure OnDemandEntriesConfig where
  maxInactiveAge : Nat
  pagesBufferLength : Nat
deriving DecidableEq, Repr

/-- The build-configuration record of next.config.ts. `env` is the list
of variables injected into the client bundle, as key-value pairs in
source order. -/
structure NextConfig where
  output : Option String
  trailingSlash : Bool
  reactStrictMode : Bool
  removeConsole : RemoveConsoleSetting
  images : ImagesConfig
  env : List (String × String)
  experimental : ExperimentalConfig
  compress : Bool
  transpilePackages : List String
  productionBrowserSourceMaps : Bool
  poweredByHeader : Bool
  onDemandEntries : OnDemandEntriesConfig
  pageExtensions : List String
deriving DecidableEq, Repr

/-- `process.env.BUILD_TARGET === "mobile"`. The process environment is
a partial map from variable names to strings; an unset variable is
`none`. -/
def isMobileBuild (env : String → Option String) : Bool :=
  env "BUILD_TARGET" == some "mobile"

/-- The `nextConfig` record of next.config.ts, as a function of the
process environment and of the clock reading `now` taken by the
`Date.now()` call in `NEXT_PUBLIC_BUILD_VERSION` (milliseconds since
the epoch). -/
def nextConfig (env : String → Option String) (now : Nat) : NextConfig :=
  { output := if isMobileBuild env then some "export" else none
    trailingSlash := isMobileBuild env
    reactStrictMode := true
    removeConsole :=
      if env "NODE_ENV" == some "production" then
        RemoveConsoleSetting.excludeList ["error", "warn"]
      else RemoveConsoleSetting.disabled
    images :=
      { remotePatterns := remotePatterns
        formats := ["image/avif", "image/webp"]
        deviceSizes := [640, 750, 828, 1080, 1200, 1920, 2048, 3840]
        minimumCacheTTL := 60 * 60 * 24 * 30 }
    env :=
      [("NEXT_PUBLIC_BUILD_VERSION", "1.0.0-" ++ toString now),
       ("NEXT_PUBLIC_R2_STORAGE_URL", "https://r2.unreal.art"),
       ("NEXT_PUBLIC_LIGHTHOUSE_GATE_WAY", "https://gateway.lighthouse.storage/ipfs/"),
       ("NEXT_PUBLIC_DEBUG",
         if env "NODE_ENV" == some "development" then "true" else "false")]
    experimental :=
      { optimizePackageImports :=
          ["react-multi-carousel", "framer-motion", "gsap", "lodash", "swiper",
           "react-loading-skeleton", "react-icons", "recharts", "@tremor/react"]
        optimizeCssExtractCritical := true
        optimizeCssInlineCritical := true
        serverActionsBodySizeLimit := "2mb" }
    compress := true
    transpilePackages := ["gsap", "three", "react-share"]
    productionBrowserSourceMaps := false
    poweredByHeader := false
    onDemandEntries := { maxInactiveAge := 60 * 60 * 1000, pagesBufferLength := 5 }
    pageExtensions := ["tsx", "ts", "jsx", "js", "mdx"] }

/-- JavaScript truthiness of an optional environment-variable string:
undefined and the empty string are falsy, every other string truthy. -/
def jsTruthy : Option String → Bool
  | none => false
  | some s => s != ""

/-- The `release` option group of the Sentry webpack plugin options. -/
structure ReleaseConfig where
  name : Option String
  create : Bool
  finalize : Bool
deriving DecidableEq, Repr

/-- The Sentry webpack plugin options record of next.config.ts. Sampling
rates are the rational values of the source's decimal literals. The
`beforeSend` hook, a function, lives alongside as the top-level
definition `beforeSend`. -/
structure SentryOptions where
  silent : Bool
  org : String
  project : String
  tracesSampleRate : Rat
  replaysSessionSampleRate : Rat
  replaysOnErrorSampleRate : Rat
  attachStacktrace : Bool
  normalizeDepth : Nat
  release : ReleaseConfig
  widenClientFileUpload : Bool
  tunnelRoute : String
  disableLogger : Bool
  automaticVercelMonitors : Bool
  disableFeedbackButton : Bool
  maxBreadcrumbs : Nat
deriving DecidableEq, Repr

/-- The `sentryWebpackPluginOptions` record of next.config.ts as a
function of the process environment. -/
def sentryWebpackPluginOptions (env : String → Option String) : SentryOptions :=
  { silent := !jsTruthy (env "CI")
    org := "unreal-decenterai"
    project := "unreal"
    tracesSampleRate := if env "NODE_ENV" == some "production" then 2 / 10 else 1
    replaysSessionSampleRate := 1 / 10
    replaysOnErrorSampleRate := 1
    attachStacktrace := true
    normalizeDepth := 10
    release :=
      { name := env "NEXT_PUBLIC_BUILD_VERSION", create := true, finalize := true }
    widenClientFileUpload := true
    tunnelRoute := "/monitoring"
    disableLogger := true
    automaticVercelMonitors := true
    disableFeedbackButton := true
    maxBreadcrumbs := 50 }

/-- An environment with only BUILD_TARGET set, to "mobile". -/
def mobileEnv : String → Option String :=
  fun k => if k = "BUILD_TARGET" then some "mobile" else none

/-- The empty environment: every variable unset. -/
def emptyEnv : String → Option String :=
  fun _ => none

/-- An environment with only NODE_ENV set, to "development". -/
def devEnv : String → Option String :=
  fun k => if k = "NODE_ENV" then some "development" else none

/-- An environment with only NEXT_PUBLIC_BUILD_VERSION set, to one value. -/
def envBuildV1 : String → Option String :=
  fun k => if k = "NEXT_PUBLIC_BUILD_VERSION" then some "1.0.0-100" else none

/-- An environment agreeing with `envBuildV1` on BUILD_TARGET, NODE_ENV
and CI but carrying a different NEXT_PUBLIC_BUILD_VERSION. -/
def envBuildV2 : String → Option String :=
  fun k => if k = "NEXT_PUBLIC_BUILD_VERSION" then some "1.0.0-200" else none

/-- C3: the remote-image allow-list has exactly seven entries, each with
protocol "https" and one of the seven listed hostnames, and a host is
permitted by the configuration exactly when it is one of those seven. -/
theorem remotePatterns_allowlist :
    remotePatterns.length = 7 ∧
    remotePatterns.all (fun p => p.protocol == "https") = true ∧
    allowedHostnames =
      ["gateway.mesh3.network", "gateway.lighthouse.storage",
       "assets.react-photo-album.com", "lh3.googleusercontent.com",
       "cdn.discordapp.com", "r2.unreal.art",
       "pub-bc2d2d9bc6fb490dbb380efd5781048d.r2.dev"] ∧
    ∀ host : String, hostAllowed host = true ↔ host ∈ allowedHostnames := by
  refine ⟨by decide, by decide, by decide, ?_⟩
  intro host
  simp only [hostAllowed, allowedHostnames, List.any_eq_true, List.mem_map,
    beq_iff_eq]

/-- C4: with BUILD_TARGET set to "mobile" the configuration's output
mode is the static-export mode "export" and trailingSlash is true; for
every other environment output is unset and trailingSlash is false. -/
theorem buildTarget_static_export (env : String → Option String) (now : Nat) :
    (env "BUILD_TARGET" = some "mobile" →
      (nextConfig env now).output = some "export" ∧
      (nextConfig env now).trailingSlash = true) ∧
    (env "BUILD_TARGET" ≠ some "mobile" →
      (nextConfig env now).output = none ∧
      (nextConfig env now).trailingSlash = false) := by
  constructor
  · intro h
    simp [nextConfig, isMobileBuild, h]
  · intro h
    have hb : (env "BUILD_TARGET" == some "mobile") = false := by
      simpa [beq_eq_false_iff_ne] using h
    simp [nextConfig, isMobileBuild, hb]

/-- Witness for C4: a mobile-target environment yields the export mode
with trailing slashes, the empty environment yields neither. -/
theorem buildTarget_static_export_witness :
    ((nextConfig mobileEnv 0).output = some "export" ∧
      (nextConfig mobileEnv 0).trailingSlash = true) ∧
    ((nextConfig emptyEnv 0).output = none ∧
      (nextConfig emptyEnv 0).trailingSlash = false) :=
  ⟨(buildTarget_static_export mobileEnv 0).1 (by decide),
   (buildTarget_static_export emptyEnv 0).2 (fun h => Option.noConfusion h)⟩

/-- C10: the injected client debug flag NEXT_PUBLIC_DEBUG is "true"
exactly when NODE_ENV is "development" and "false" for every other
NODE_ENV, including absent. -/
theorem debugFlag_tracks_development (env : String → Option String) (now : Nat) :
    (env "NODE_ENV" = some "development" →
      (nextConfig env now).env.lookup "NEXT_PUBLIC_DEBUG" = some "true") ∧
    (env "NODE_ENV" ≠ some "development" →
      (nextConfig env now).env.lookup "NEXT_PUBLIC_DEBUG" = some "false") := by
  have k1 : ("NEXT_PUBLIC_DEBUG" == "NEXT_PUBLIC_BUILD_VERSION") = false := by decide
  have k2 : ("NEXT_PUBLIC_DEBUG" == "NEXT_PUBLIC_R2_STORAGE_URL") = false := by decide
  have k3 : ("NEXT_PUBLIC_DEBUG" == "NEXT_PUBLIC_LIGHTHOUSE_GATE_WAY") = false := by decide
  constructor
  · intro h
    simp [nextConfig, List.lookup, k1, k2, k3, h]
  · intro h
    have hn : (env "NODE_ENV" == some "development") = false := by
      simpa [beq_eq_false_iff_ne] using h
    simp [nextConfig, List.lookup, k1, k2, k3, hn]

/-- Witness for C10: a development environment injects "true", the empty
environment injects "false". -/
theorem debugFlag_tracks_development_witness :
    (nextConfig devEnv 0).env.lookup "NEXT_PUBLIC_DEBUG" = some "true" ∧
    (nextConfig emptyEnv 0).env.lookup "NEXT_PUBLIC_DEBUG" = some "false" :=
  ⟨(debugFlag_tracks_development devEnv 0).1 (by decide),
   (debugFlag_tracks_development emptyEnv 0).2 (fun h => Option.noConfusion h)⟩

/-- C7 as stated is false: the Sentry plugin options also read
NEXT_PUBLIC_BUILD_VERSION (release name), so two environments agreeing
on BUILD_TARGET, NODE_ENV and CI can still evaluate to different
configuration records. -/
theorem config_three_vars_counterexample :
    envBuildV1 "BUILD_TARGET" = envBuildV2 "BUILD_TARGET" ∧
    envBuildV1 "NODE_ENV" = envBuildV2 "NODE_ENV" ∧
    envBuildV1 "CI" = envBuildV2 "CI" ∧
    sentryWebpackPluginOptions envBuildV1 ≠ sentryWebpackPluginOptions envBuildV2 := by
  refine ⟨by decide, by decide, by decide, ?_⟩
  intro h
  have hname := congrArg (fun o => o.release.name) h
  simp [sentryWebpackPluginOptions, envBuildV1, envBuildV2] at hname

/-- C7 amended: the configuration depends only on BUILD_TARGET,
NODE_ENV, CI, NEXT_PUBLIC_BUILD_VERSION and the clock reading taken by
Date.now(), and the client-bundle injections are exactly the four keys
NEXT_PUBLIC_BUILD_VERSION, NEXT_PUBLIC_R2_STORAGE_URL,
NEXT_PUBLIC_LIGHTHOUSE_GATE_WAY and NEXT_PUBLIC_DEBUG. -/
theorem config_depends_only_on_declared_inputs
    (e1 e2 : String → Option String) (now : Nat)
    (hbt : e1 "BUILD_TARGET" = e2 "BUILD_TARGET")
    (hne : e1 "NODE_ENV" = e2 "NODE_ENV")
    (hci : e1 "CI" = e2 "CI")
    (hbv : e1 "NEXT_PUBLIC_BUILD_VERSION" = e2 "NEXT_PUBLIC_BUILD_VERSION") :
    nextConfig e1 now = nextConfig e2 now ∧
    sentryWebpackPluginOptions e1 = sentryWebpackPluginOptions e2 ∧
    (nextConfig e1 now).env.map Prod.fst =
      ["NEXT_PUBLIC_BUILD_VERSION", "NEXT_PUBLIC_R2_STORAGE_URL",
       "NEXT_PUBLIC_LIGHTHOUSE_GATE_WAY", "NEXT_PUBLIC_DEBUG"] := by
  refine ⟨?_, ?_, rfl⟩
  · simp [nextConfig, isMobileBuild, hbt, hne]
  · simp [sentryWebpackPluginOptions, hne, hci, hbv]

/-- Witness for the amended C7 at a concrete pair of (equal)
environments. -/
theorem config_depends_only_on_declared_inputs_witness :
    nextConfig envBuildV1 0 = nextConfig envBuildV1 0 ∧
    sentryWebpackPluginOptions envBuildV1 = sentryWebpackPluginOptions envBuildV1 ∧
    (nextConfig envBuildV1 0).env.map Prod.fst =
      ["NEXT_PUBLIC_BUILD_VERSION", "NEXT_PUBLIC_R2_STORAGE_URL",
       "NEXT_PUBLIC_LIGHTHOUSE_GATE_WAY", "NEXT_PUBLIC_DEBUG"] :=
  config_depends_only_on_declared_inputs envBuildV1 envBuildV1 0 rfl rfl rfl rfl

/-- A node of the auth page markup (src/app/auth/page.tsx): host
elements with tag, class and children; text; a suspense boundary with
fallback and child; and the imported components as leaf nodes carrying
their props (SocialLink with icon and url, AuthBtn with icon, provider
and label, GoogleIcon, LandingCarouselTwo). -/
inductive Node where
  | element (tag : String) (className : String) (children : List Node)
  | text (s : String)
  | suspense (fallback : Node) (child : Node)
  | socialLink (icon : String) (url : String)
  | authBtn (icon : Node) (provider : String) (label : String)
  | googleIcon (color : String) (width : Nat) (height : Nat)
  | landingCarouselTwo

/-- The Suspense fallback of the sign-in region: the "Loading..."
placeholder div. -/
def signInFallback : Node :=
  Node.element "div"
    "px-6 py-3 bg-primary-13 text-primary-11 rounded-md flex justify-center items-center h-10 w-[276px] border-[1px] border-primary-9"
    [Node.text "Loading..."]

/-- The provider sign-in button of the sign-in region: AuthBtn with the
Google icon, provider "google" and the "Continue with Google" label. -/
def signInButton : Node :=
  Node.authBtn (Node.googleIcon "#C1C1C1" 21 20) "google" "Continue with Google"

/-- The sign-in button region: the suspense boundary declared in the
auth page, wrapping `signInButton` with fallback `signInFallback`. -/
def signInRegion : Node :=
  Node.suspense signInFallback signInButton

/-- The markup tree returned by the Auth page component (the inline
zIndex style of the sign-in wrapper div is elided; all classes, props
and children follow the JSX). -/
def authPage : Node :=
  Node.element "main" "bg-primary-13 h-[100dvh] flex flex-col "
    [Node.element "div" "w-full h-[65%]  overflow-clip" [Node.landingCarouselTwo],
     Node.element "div"
       "h-[20%]  inset-x-0 mx-auto flex flex-col justify-center items-center w-[350px] max-w-[90%] sm:max-w-[80%] rounded-b-xl gap-4 shadow-lg"
       [signInRegion],
     Node.element "div"
       "flex-1 flex flex-col items-center  justify-center w-full borderColor-primary-10/50 "
       [Node.element "div"
         "flex gap-9 justify-center py-3 px-6 max-h-14 borderColor-primary-10/50 border-[1px] rounded-[20px]"
         [Node.socialLink "/icons/linkedin.png"
            "https://www.linkedin.com/company/decenter-ai/",
          Node.socialLink "/icons/telegram.png" "https://t.me/decenteraicomchat",
          Node.socialLink "/icons/x.png"
            "https://twitter.com/decenteraicom?s=21&t=th7q1ztmiuaE2PoODm3k0A"]]]

mutual

/-- The suspense boundaries occurring in a markup tree, in document
order. -/
def suspenseNodes : Node → List Node
  | Node.element _ _ cs => suspenseNodesList cs
  | Node.suspense fb c => [Node.suspense fb c]
  | _ => []

/-- The suspense boundaries occurring in a list of sibling nodes. -/
def suspenseNodesList : List Node → List Node
  | [] => []
  | n :: ns => suspenseNodes n ++ suspenseNodesList ns

end

mutual

/-- The target URLs of the outbound social links occurring in a markup
tree, in document order. SocialLink is modelled from the spec:
"Outbound links to three fixed social-media URLs" — the component's own
file is not part of the sources, so it is kept as a leaf carrying its
url prop. -/
def socialLinkUrls : Node → List String
  | Node.element _ _ cs => socialLinkUrlsList cs
  | Node.suspense fb c => socialLinkUrls fb ++ socialLinkUrls c
  | Node.socialLink _ url => [url]
  | _ => []

/-- The social-link URLs occurring in a list of sibling nodes. -/
def socialLinkUrlsList : List Node → List String
  | [] => []
  | n :: ns => socialLinkUrls n ++ socialLinkUrlsList ns

end

/-- Modelled from the spec: the suspense boundary is "a declarative
mechanism to show a fallback view while an awaited child resolves" and
the region is "a single conditional display swap while an external
button component resolves" — so the rendered content of a boundary is
its fallback before the child has resolved and the child afterwards.
React's Suspense implementation and the AuthBtn component are external
to the sources. -/
def displayedNode (resolved : Bool) : Node → Node
  | Node.suspense fb c => if resolved then c else fb
  | n => n

/-- C5: the auth page has exactly one suspense boundary — the sign-in
region — which displays the "Loading..." fallback while AuthBtn has not
resolved, the provider button once it has, and is never in a third
display state. -/
theorem signIn_region_two_display_states :
    suspenseNodes authPage = [signInRegion] ∧
    displayedNode false signInRegion = signInFallback ∧
    displayedNode true signInRegion = signInButton ∧
    ∀ resolved : Bool,
      displayedNode resolved signInRegion = signInFallback ∨
      displayedNode resolved signInRegion = signInButton := by
  refine ⟨rfl, rfl, rfl, ?_⟩
  intro resolved
  cases resolved
  · exact Or.inl rfl
  · exact Or.inr rfl

/-- C6: the auth page renders exactly three outbound social links, whose
target URLs are the fixed LinkedIn, Telegram and Twitter addresses;
`authPage` is a closed constant, so this holds independently of any
input or environment. -/
theorem authPage_three_social_links :
    socialLinkUrls authPage =
      ["https://www.linkedin.com/company/decenter-ai/",
       "https://t.me/decenteraicomchat",
       "https://twitter.com/decenteraicom?s=21&t=th7q1ztmiuaE2PoODm3k0A"] ∧
    (socialLinkUrls authPage).length = 3 :=
  ⟨rfl, rfl⟩

end UnrealArt
